import Mathlib

/-!
Verification development for the voice-retro-bot repository.

The definitions below are a shallow embedding of the Python sources:
  * `src/models/conversation_state.py`  (RetroStep, ConversationState)
  * `src/services/conversation_manager.py`  (ConversationManager)
  * `src/services/whisper_service.py`  (WhisperService)
  * `src/services/voice_processor.py`  (VoiceProcessor)
  * `src/utils/file_manager.py`, `src/utils/progress_tracker.py`
  * `src/services/scheduler_service.py`  (SchedulerService)

Modelling conventions:
  * wall-clock instants (`datetime.utcnow()`) are natural numbers (seconds);
  * Python strings are Lean `String`; `str.strip()` is modelled by `pyStrip`
    (removal of leading and trailing whitespace characters), `str.lower()` by
    `pyLower` (character-wise `Char.toLower`, which lowers the ASCII range),
    `len` by `String.length`, and `pattern in text` by `strContainsSub`;
  * network and subprocess effects are oracles: a call outcome is a field of an
    oracle structure that the embedded control flow consumes;
  * outbound Telegram messages are recorded as tags in an emitted list, and
    database writes are recorded as (field, value) pairs, so that frame
    conditions are statable.
-/

/-! ### Python string helpers -/

/-- Removal of leading and trailing whitespace, Python `str.strip()`. -/
def pyStrip (s : String) : String :=
  ⟨((s.data.dropWhile Char.isWhitespace).reverse.dropWhile Char.isWhitespace).reverse⟩

/-- Character-wise lower-casing, Python `str.lower()` (ASCII range). -/
def pyLower (s : String) : String :=
  ⟨s.data.map Char.toLower⟩

/-- Whether `p` occurs as a contiguous run inside `l`. -/
def listContainsSub (p l : List Char) : Bool :=
  match l with
  | [] => p.isEmpty
  | _ :: t => p.isPrefixOf l || listContainsSub p t

/-- Python substring test `p in s`. -/
def strContainsSub (p s : String) : Bool :=
  listContainsSub p.data s.data

/-! ### `src/models/conversation_state.py` -/

/-- Enumeration of retrospective conversation steps (`RetroStep`). -/
inductive RetroStep where
  | IDLE
  | ENERGY
  | MOOD
  | MOOD_EXPLANATION
  | WINS
  | LEARNINGS
  | NEXT_ACTIONS
  | MITS
  | EXPERIMENT
  | REVIEW
  | COMPLETED
  deriving DecidableEq, Repr, Fintype

/-- The persisted conversation state (`ConversationState`); the identity key
and the two server-maintained timestamps are dropped, `expires_at` is kept. -/
structure ConversationState where
  current_step : RetroStep
  current_retro_id : Option Nat
  temp_data : List (String × String)
  last_message_id : Option Nat
  expires_at : Option Nat
  deriving DecidableEq, Repr

/-- `ConversationState.is_expired`: `datetime.utcnow() > self.expires_at`,
false when `expires_at` is unset. -/
def ConversationState.is_expired (s : ConversationState) (now : Nat) : Bool :=
  match s.expires_at with
  | none => false
  | some e => decide (e < now)

/-- `ConversationState.is_active`: step is neither IDLE nor COMPLETED and the
state is not expired. -/
def ConversationState.is_active (s : ConversationState) (now : Nat) : Bool :=
  !decide (s.current_step = RetroStep.IDLE) &&
  !decide (s.current_step = RetroStep.COMPLETED) &&
  !(s.is_expired now)

/-- `ConversationState.reset_conversation`. -/
def ConversationState.reset_conversation (s : ConversationState) : ConversationState :=
  { s with
    current_step := RetroStep.IDLE
    current_retro_id := none
    temp_data := []
    last_message_id := none
    expires_at := none }

/-- The step list hard-coded inside `ConversationState.get_next_step`;
it contains `MOOD_EXPLANATION`. -/
def stateStepOrder : List RetroStep :=
  [RetroStep.ENERGY, RetroStep.MOOD, RetroStep.MOOD_EXPLANATION, RetroStep.WINS,
   RetroStep.LEARNINGS, RetroStep.NEXT_ACTIONS, RetroStep.MITS,
   RetroStep.EXPERIMENT, RetroStep.REVIEW, RetroStep.COMPLETED]

/-- Successor lookup shared by both next-step functions: `list.index(current)`
followed by `list[index + 1]` when the index is not last; a `ValueError`
(element absent) yields `None`. -/
def nextInOrder (order : List RetroStep) (current : RetroStep) : Option RetroStep :=
  match order.findIdx? (fun s => s = current) with
  | some i => if i < order.length - 1 then order[i + 1]? else none
  | none => none

/-- `ConversationState.get_next_step`, as a function of the current step. -/
def ConversationState.get_next_step (current : RetroStep) : Option RetroStep :=
  nextInOrder stateStepOrder current

/-! ### `src/services/conversation_manager.py` -/

/-- `RetroFieldType`. -/
inductive RetroFieldType where
  | ENERGY
  | MOOD
  | WINS
  | LEARNINGS
  | NEXT_ACTIONS
  | MITS
  | EXPERIMENT
  deriving DecidableEq, Repr

/-- One entry of the `step_questions` configuration. -/
structure StepConfig where
  question : String
  hint : String
  field_type : RetroFieldType
  optional : Bool
  deriving DecidableEq, Repr

/-- `ConversationManager.step_questions`: the step-question configuration
dictionary; steps absent from the dictionary map to `none`. -/
def step_questions : RetroStep → Option StepConfig
  | RetroStep.ENERGY => some
      { question := "🔋 **Как твой уровень энергии сегодня?**\n\nОцени от 1 до 5:\n• 1 - Очень низкий\n• 2 - Низкий\n• 3 - Средний\n• 4 - Высокий\n• 5 - Очень высокий"
        hint := "💡 Отправь голосовое сообщение или напиши цифру с объяснением"
        field_type := RetroFieldType.ENERGY
        optional := false }
  | RetroStep.MOOD => some
      { question := "😊 **Какое у тебя настроение?**\n\nОпиши свое настроение и эмоции сегодня"
        hint := "💡 Можешь использовать эмодзи и рассказать, что повлияло на настроение"
        field_type := RetroFieldType.MOOD
        optional := false }
  | RetroStep.WINS => some
      { question := "🏆 **Какие у тебя победы сегодня?**\n\nРасскажи о своих достижениях, больших и маленьких"
        hint := "💡 Может быть завершенная задача, новое знание, помощь другим..."
        field_type := RetroFieldType.WINS
        optional := false }
  | RetroStep.LEARNINGS => some
      { question := "📚 **Чему ты научился сегодня?**\n\nКакие уроки или инсайты получил?"
        hint := "💡 Новые знания, понимания, выводы из опыта..."
        field_type := RetroFieldType.LEARNINGS
        optional := false }
  | RetroStep.NEXT_ACTIONS => some
      { question := "🎯 **Что планируешь делать завтра?**\n\nКакие у тебя планы и задачи?"
        hint := "💡 Конкретные действия, встречи, проекты..."
        field_type := RetroFieldType.NEXT_ACTIONS
        optional := false }
  | RetroStep.MITS => some
      { question := "⭐ **Какие 1-3 самые важные задачи завтра?**\n\nВыбери приоритетные задачи (MITs - Most Important Tasks)"
        hint := "💡 Те задачи, которые принесут максимальную пользу"
        field_type := RetroFieldType.MITS
        optional := false }
  | RetroStep.EXPERIMENT => some
      { question := "🧪 **Хочешь попробовать что-то новое?**\n\nКакой эксперимент планируешь провести?"
        hint := "💡 Новый подход, инструмент, привычка... Можешь пропустить"
        field_type := RetroFieldType.EXPERIMENT
        optional := true }
  | _ => none

/-- `ConversationManager.step_order`: the progression list used by the
manager; it does not contain `MOOD_EXPLANATION`. -/
def step_order : List RetroStep :=
  [RetroStep.ENERGY, RetroStep.MOOD, RetroStep.WINS, RetroStep.LEARNINGS,
   RetroStep.NEXT_ACTIONS, RetroStep.MITS, RetroStep.EXPERIMENT,
   RetroStep.REVIEW, RetroStep.COMPLETED]

/-- `ConversationManager._get_next_step`. -/
def managerGetNextStep (current : RetroStep) : Option RetroStep :=
  nextInOrder step_order current

/-- Field columns of the Retro record written by `_save_raw_text`. -/
inductive RetroField where
  | energy_level
  | mood
  | mood_explanation
  | wins_text
  | learnings_text
  | next_actions_text
  | mits_text
  | experiment_text
  deriving DecidableEq, Repr

/-- A value written into a Retro field. -/
inductive FieldValue where
  | num (n : Option Nat)
  | txt (s : String)
  deriving DecidableEq, Repr

/-- `ConversationManager._save_raw_text`: the list of
`update_retro_field` writes performed for one answered step.  The two
regex-based extractors `_extract_energy_level` and `_extract_mood_emoji` are
passed in as parameters, since no claim depends on their value. -/
def save_raw_text (extractEnergy : String → Option Nat) (extractMood : String → String)
    (field_type : RetroFieldType) (user_text : String) : List (RetroField × FieldValue) :=
  match field_type with
  | RetroFieldType.ENERGY =>
      [(RetroField.energy_level, FieldValue.num (extractEnergy user_text)),
       (RetroField.mood_explanation, FieldValue.txt user_text)]
  | RetroFieldType.MOOD =>
      [(RetroField.mood, FieldValue.txt (extractMood user_text)),
       (RetroField.mood_explanation, FieldValue.txt user_text)]
  | RetroFieldType.WINS => [(RetroField.wins_text, FieldValue.txt user_text)]
  | RetroFieldType.LEARNINGS => [(RetroField.learnings_text, FieldValue.txt user_text)]
  | RetroFieldType.NEXT_ACTIONS => [(RetroField.next_actions_text, FieldValue.txt user_text)]
  | RetroFieldType.MITS => [(RetroField.mits_text, FieldValue.txt user_text)]
  | RetroFieldType.EXPERIMENT => [(RetroField.experiment_text, FieldValue.txt user_text)]

/-- Tags for the outbound Telegram messages the manager sends. -/
inductive MsgTag where
  | noActiveRetroNotice
  | expiredNotice
  | emptyInputNotice
  | answerSaved
  | stepQuestion (step : RetroStep)
  | reviewShown
  | retroCompleted
  | retroDocument
  deriving DecidableEq, Repr

/-- `ConversationManager._complete_retro`: completes the Retro record, resets
the conversation state and sends the completion message plus the rendered
document. -/
def complete_retro (state : ConversationState) : ConversationState × List MsgTag :=
  (state.reset_conversation, [MsgTag.retroCompleted, MsgTag.retroDocument])

/-- `ConversationManager._ask_current_question`: REVIEW shows the review
preview, COMPLETED completes the retro, a configured step sends its question,
and an unknown step sends nothing (logged error, early return). -/
def ask_current_question (state : ConversationState) : ConversationState × List MsgTag :=
  if state.current_step = RetroStep.REVIEW then
    (state, [MsgTag.reviewShown])
  else if state.current_step = RetroStep.COMPLETED then
    complete_retro state
  else
    match step_questions state.current_step with
    | none => (state, [])
    | some _ => (state, [MsgTag.stepQuestion state.current_step])

/-- `ConversationManager._do_advance_step`: computes `_get_next_step`; on a
successor it persists the new step and asks the next question, otherwise it
completes the retro. -/
def do_advance_step (state : ConversationState) : ConversationState × List MsgTag :=
  match managerGetNextStep state.current_step with
  | some next => ask_current_question { state with current_step := next }
  | none => complete_retro state

/-- Effects of one `_process_step_response` call: the Retro field writes, the
outbound messages, and the resulting conversation state. -/
structure StepEffects where
  writes : List (RetroField × FieldValue)
  messages : List MsgTag
  newState : ConversationState
  deriving DecidableEq, Repr

/-- `ConversationManager._process_step_response`: a step absent from
`step_questions` returns immediately; otherwise the stripped input is saved
via `_save_raw_text`, a confirmation is sent, and the conversation advances. -/
def process_step_response (extractEnergy : String → Option Nat) (extractMood : String → String)
    (state : ConversationState) (user_input : String) : StepEffects :=
  match step_questions state.current_step with
  | none => { writes := [], messages := [], newState := state }
  | some cfg =>
      let cleaned := pyStrip user_input
      let writes := save_raw_text extractEnergy extractMood cfg.field_type cleaned
      let advanced := do_advance_step state
      { writes := writes
        messages := MsgTag.answerSaved :: advanced.2
        newState := advanced.1 }

/-- The branch taken by `ConversationManager.handle_user_response`. -/
inductive HandleOutcome where
  | noActiveRetro
  | expiredReset
  | emptyInput
  | processed
  deriving DecidableEq, Repr

/-- Result of one `handle_user_response` call. -/
structure HandleResult where
  outcome : HandleOutcome
  returnValue : Bool
  newState : Option ConversationState
  writes : List (RetroField × FieldValue)
  messages : List MsgTag
  deriving DecidableEq, Repr

/-- `ConversationManager.handle_user_response` on the text path (a voice
submission resolves the transcript before the same step processing, but after
the same two state guards, so the guards are unaffected): a missing or
non-active state sends the no-active-retro notice and returns `False`; an
active state that `is_expired` reports would be reset with the expiry notice;
empty stripped input is refused; otherwise `_process_step_response` runs and
the call returns `True`. -/
def handle_user_response (extractEnergy : String → Option Nat) (extractMood : String → String)
    (now : Nat) (state? : Option ConversationState) (message_text : String) : HandleResult :=
  match state? with
  | none =>
      { outcome := HandleOutcome.noActiveRetro, returnValue := false,
        newState := none, writes := [], messages := [MsgTag.noActiveRetroNotice] }
  | some state =>
      if state.is_active now = false then
        { outcome := HandleOutcome.noActiveRetro, returnValue := false,
          newState := some state, writes := [], messages := [MsgTag.noActiveRetroNotice] }
      else if state.is_expired now = true then
        { outcome := HandleOutcome.expiredReset, returnValue := false,
          newState := some state.reset_conversation, writes := [],
          messages := [MsgTag.expiredNotice] }
      else
        let user_input := pyStrip message_text
        if user_input = "" then
          { outcome := HandleOutcome.emptyInput, returnValue := false,
            newState := some state, writes := [], messages := [MsgTag.emptyInputNotice] }
        else
          let effects := process_step_response extractEnergy extractMood state user_input
          { outcome := HandleOutcome.processed, returnValue := true,
            newState := some effects.newState, writes := effects.writes,
            messages := effects.messages }

/-! ### `src/services/whisper_service.py` -/

/-- The three transcription tiers of `transcribe_with_fallback`: the primary
language, the optional fixed fallback language, and auto-detection. -/
inductive Tier where
  | primaryT
  | fallbackT
  | autoT
  deriving DecidableEq, Repr

/-- Outcome of one `transcribe_audio` call: the text of the response, or a
raised `WhisperTranscriptionError`. -/
inductive AttemptResult where
  | ok (text : String)
  | err
  deriving DecidableEq, Repr

/-- The fields of the transcription result dictionary the pipeline reads. -/
structure TranscriptionResult where
  text : String
  language : String
  fallback_used : Bool
  auto_detected : Bool
  deriving DecidableEq, Repr

/-- Instrumented run of `transcribe_with_fallback`: the tiers attempted in
order, and the returned dictionary (`none` models the terminal raise). -/
structure FallbackRun where
  attempts : List Tier
  outcome : Option TranscriptionResult
  deriving DecidableEq, Repr

/-- The closing auto-detection attempt (`language=""`): its result is returned
unconditionally on success; its raise is the terminal raise. -/
def autoTierRun (oracle : Tier → AttemptResult) (prior : List Tier) : FallbackRun :=
  match oracle Tier.autoT with
  | AttemptResult.ok t =>
      { attempts := prior ++ [Tier.autoT]
        outcome := some { text := t, language := "", fallback_used := false, auto_detected := true } }
  | AttemptResult.err => { attempts := prior ++ [Tier.autoT], outcome := none }

/-- The fallback-language attempt, entered when the primary tier raised or
produced empty text: skipped entirely when no fallback language is given; its
result is returned unconditionally on success. -/
def fallbackTierRun (oracle : Tier → AttemptResult) (fallback_language : Option String)
    (prior : List Tier) : FallbackRun :=
  match fallback_language with
  | some fl =>
      match oracle Tier.fallbackT with
      | AttemptResult.ok t =>
          { attempts := prior ++ [Tier.fallbackT]
            outcome := some { text := t, language := fl, fallback_used := true, auto_detected := false } }
      | AttemptResult.err => autoTierRun oracle (prior ++ [Tier.fallbackT])
  | none => autoTierRun oracle prior

/-- `WhisperService.transcribe_with_fallback`: the primary language is tried
first and its result returned only when the stripped text is non-empty; on a
raise or empty text the control falls through to the fallback tier and then to
auto-detection. -/
def transcribe_with_fallback (oracle : Tier → AttemptResult) (primary_language : String)
    (fallback_language : Option String) : FallbackRun :=
  match oracle Tier.primaryT with
  | AttemptResult.ok t =>
      if pyStrip t = "" then
        fallbackTierRun oracle fallback_language [Tier.primaryT]
      else
        { attempts := [Tier.primaryT]
          outcome := some { text := t, language := primary_language, fallback_used := false, auto_detected := false } }
  | AttemptResult.err => fallbackTierRun oracle fallback_language [Tier.primaryT]

/-- `WhisperService.validate_transcription` suspicious marker substrings;
the first entry is three ellipses in a row. -/
def suspicious_patterns : List String :=
  [".........", "[неразборчиво]", "[inaudible]", "???"]

/-- `WhisperService.validate_transcription` on the text of the result
dictionary: non-empty after stripping, at least 3 characters, and free of the
suspicious markers inside the lower-cased text. -/
def validate_transcription (text0 : String) : Bool :=
  let text := pyStrip text0
  if text = "" then false
  else if text.length < 3 then false
  else if suspicious_patterns.any (fun p => strContainsSub p (pyLower text)) then false
  else true

/-! ### `src/utils/progress_tracker.py` and `src/services/voice_processor.py` -/

/-- `ProcessingStep` of the progress tracker. -/
inductive PStep where
  | DOWNLOADING
  | VALIDATING
  | CONVERTING
  | TRANSCRIBING
  | COMPLETED
  | FAILED
  deriving DecidableEq, Repr

/-- A progress event emitted through the tracker.  `start_step`,
`complete_step` and `fail_step` all pass `force_update=True`, so every such
call is flushed to the outbound channel; the event list therefore records
exactly these calls. -/
inductive PEvent where
  | startE (step : PStep)
  | completeE (step : PStep)
  | failE
  deriving DecidableEq, Repr

/-- `VoiceProcessor.processing_timeout` (assigned in `__init__`). -/
def processing_timeout : Nat := 120

/-- The error-message classes a failed `VoiceProcessingResult` can carry:
the timeout message, the message of the known pipeline exception handler
(`AudioConversionError`, `WhisperTranscriptionError`, `VoiceProcessingError`),
and the generic internal-error message. -/
inductive VPError where
  | timeoutMsg
  | pipelineMsg
  | internalMsg
  deriving DecidableEq, Repr

/-- `VoiceProcessingResult`; the metadata bag is flattened to the fields the
code writes and reads (`quality_valid`, `fallback_used`, `auto_detected`),
with the failure constructor defaults. -/
structure VoiceProcessingResult where
  success : Bool
  transcribed_text : String
  original_language : String
  processing_time : Nat
  file_size : Nat
  errorKind : Option VPError
  quality_valid : Bool
  fallback_used : Bool
  auto_detected : Bool
  deriving DecidableEq, Repr

/-- Failure result of the pipeline (`success=False`, only the error message
and the elapsed time are set). -/
def failedResult (k : VPError) (t : Nat) : VoiceProcessingResult :=
  { success := false, transcribed_text := "", original_language := ""
    processing_time := t, file_size := 0, errorKind := some k
    quality_valid := false, fallback_used := false, auto_detected := false }

/-- Oracle for one `process_telegram_voice` run: the outcome of each external
effect, and the wall-clock seconds each stage consumes. -/
structure VoiceOracle where
  download : Option Nat
  validate_ok : Bool
  duration : Option Nat
  convert_ok : Bool
  tiers : Tier → AttemptResult
  t_download : Nat
  t_validate : Nat
  t_convert : Nat
  t_transcribe : Nat

/-- Instrumented run of `process_telegram_voice`: the returned result, the
emitted progress events, the number of pipeline temporary files created over
the run, and the number still on disk after the call returns. -/
structure PipelineRun where
  result : VoiceProcessingResult
  events : List PEvent
  filesCreated : Nat
  filesRemaining : Nat
  deriving Repr

/-- `VoiceProcessor.process_telegram_voice`.  The two temporary artifacts are
scoped: the downloaded original inside `telegram_file_context` and the
transcoded copy inside `temp_file_context`, both released in `finally`
blocks on every exit path (a cancellation propagates like any exception, so it
takes the same `finally` path); a failed download unlinks its partial artifact
inside `download_telegram_file` before re-raising.  A raised
`asyncio.TimeoutError` would produce the distinct timeout failure, but the
converter and the whisper client both convert their internal timeouts into
`AudioConversionError` and `WhisperTranscriptionError` before they reach this
handler, and `processing_timeout` is never applied to the pipeline, so no
modelled path yields the timeout failure. -/
def process_telegram_voice (o : VoiceOracle) (progressAttached : Bool)
    (language : String) : PipelineRun :=
  let emit : List PEvent → List PEvent := fun es => if progressAttached then es else []
  let ev0 := emit [PEvent.startE PStep.DOWNLOADING]
  match o.download with
  | none =>
      { result := failedResult VPError.internalMsg o.t_download
        events := ev0 ++ emit [PEvent.failE]
        filesCreated := 1, filesRemaining := 0 }
  | some size =>
      let ev1 := ev0 ++ emit [PEvent.completeE PStep.DOWNLOADING, PEvent.startE PStep.VALIDATING]
      if o.validate_ok = false then
        { result := failedResult VPError.pipelineMsg (o.t_download + o.t_validate)
          events := ev1 ++ emit [PEvent.failE]
          filesCreated := 1, filesRemaining := 0 }
      else
        let ev2 := ev1 ++ emit [PEvent.completeE PStep.VALIDATING, PEvent.startE PStep.CONVERTING]
        if o.convert_ok = false then
          { result := failedResult VPError.pipelineMsg (o.t_download + o.t_validate + o.t_convert)
            events := ev2 ++ emit [PEvent.failE]
            filesCreated := 2, filesRemaining := 0 }
        else
          let ev3 := ev2 ++ emit [PEvent.completeE PStep.CONVERTING, PEvent.startE PStep.TRANSCRIBING]
          let fb := transcribe_with_fallback o.tiers language
            (if language = "en" then none else some "en")
          let elapsed := o.t_download + o.t_validate + o.t_convert + o.t_transcribe
          match fb.outcome with
          | none =>
              { result := failedResult VPError.pipelineMsg elapsed
                events := ev3 ++ emit [PEvent.failE]
                filesCreated := 2, filesRemaining := 0 }
          | some tr =>
              let quality := validate_transcription tr.text
              { result :=
                  { success := true, transcribed_text := tr.text
                    original_language := tr.language, processing_time := elapsed
                    file_size := size, errorKind := none
                    quality_valid := quality, fallback_used := tr.fallback_used
                    auto_detected := tr.auto_detected }
                events := ev3 ++ emit [PEvent.completeE PStep.TRANSCRIBING, PEvent.completeE PStep.COMPLETED]
                filesCreated := 2, filesRemaining := 0 }

/-! ### `src/services/scheduler_service.py` -/

/-- `SchedulerService.daily_reminder_time` as minute of day (8:00). -/
def daily_reminder_minutes : Nat := 8 * 60 + 0

/-- `SchedulerService._should_send_daily_reminder`: the Moscow minute of day
is within one minute of the target. -/
def should_send_daily_reminder (current_minutes : Nat) : Bool :=
  decide (((current_minutes : Int) - (daily_reminder_minutes : Int)).natAbs ≤ 1)

/-- The loop body of `_send_daily_reminders`: a participant already in the
`_daily_sent_users` set is skipped, otherwise a delivery attempt is made and
the participant is added to the set on success.  The accumulator carries the
attempt list and the set. -/
def reminderStep (sendOk : Nat → Bool) (acc : List Nat × List Nat) (uid : Nat) :
    List Nat × List Nat :=
  if acc.2.contains uid then acc
  else (acc.1 ++ [uid], if sendOk uid then acc.2 ++ [uid] else acc.2)

/-- One `SchedulerService._send_daily_reminders` broadcast run: the run starts
by clearing `_daily_sent_users` (the empty initial set), then walks the
participant list with `reminderStep`.  Returns the list of delivery attempts
(in order) and the final set. -/
def send_daily_reminders (users : List Nat) (sendOk : Nat → Bool) : List Nat × List Nat :=
  users.foldl (reminderStep sendOk) ([], [])

/-- `SchedulerService._scheduler_loop` over a finite list of tick instants
(each given as the Moscow minute of day), under the timing premise that every
spawned broadcast finishes before the next tick, 60 seconds later — true
whenever the participant list is short, since the broadcast spends 0.5 s per
participant — so `_daily_task.done()` holds at every tick.  Returns the
delivery attempts accumulated over all ticks. -/
def scheduler_ticks (tickMinutes : List Nat) (users : List Nat) (sendOk : Nat → Bool) : List Nat :=
  tickMinutes.foldl
    (fun attempts m =>
      if should_send_daily_reminder m then attempts ++ (send_daily_reminders users sendOk).1
      else attempts)
    []

/-! ### Specification-side definitions used for refinement statements -/

/-- Whether the primary tier both succeeded and produced non-empty text, the
only condition under which `transcribe_with_fallback` returns at tier one. -/
def primaryTierDone (oracle : Tier → AttemptResult) : Bool :=
  match oracle Tier.primaryT with
  | AttemptResult.ok t => !decide (pyStrip t = "")
  | AttemptResult.err => false

/-- The tier-attempt trace `transcribe_with_fallback` is expected to produce:
always the primary tier; then, unless the primary tier returned, the fallback
tier when a fallback language is given; then, unless an earlier tier
returned, the auto-detection tier. -/
def tierTrace (oracle : Tier → AttemptResult) (fallback_language : Option String) : List Tier :=
  if primaryTierDone oracle then [Tier.primaryT]
  else
    match fallback_language with
    | some _ =>
        match oracle Tier.fallbackT with
        | AttemptResult.ok _ => [Tier.primaryT, Tier.fallbackT]
        | AttemptResult.err => [Tier.primaryT, Tier.fallbackT, Tier.autoT]
    | none => [Tier.primaryT, Tier.autoT]

/-! ### Concrete instances used in closed statements -/

/-- Stub for the `_extract_energy_level` parameter in closed evaluations. -/
def zeroEnergyExtract : String → Option Nat := fun _ => none

/-- Stub for the `_extract_mood_emoji` parameter in closed evaluations. -/
def defaultMoodExtract : String → String := fun _ => "😊"

/-- A conversation paused on the ENERGY step whose session expires at
instant 1000. -/
def stateEnergyExpiring : ConversationState :=
  { current_step := RetroStep.ENERGY, current_retro_id := some 1,
    temp_data := [], last_message_id := none, expires_at := some 1000 }

/-- A conversation sitting on the REVIEW step. -/
def stateReviewStep : ConversationState :=
  { current_step := RetroStep.REVIEW, current_retro_id := some 1,
    temp_data := [], last_message_id := none, expires_at := some 5000 }

/-- A transcription oracle answering every tier with the same text. -/
def okTextOracle (t : String) : Tier → AttemptResult := fun _ => AttemptResult.ok t

/-- A transcription oracle whose primary and fallback tiers succeed with empty
text while auto-detection would succeed with real text. -/
def emptyThenAutoOracle : Tier → AttemptResult
  | Tier.primaryT => AttemptResult.ok ""
  | Tier.fallbackT => AttemptResult.ok ""
  | Tier.autoT => AttemptResult.ok "detected"

/-- A transcription oracle whose primary tier raises and whose fallback tier
succeeds. -/
def errThenFallbackOracle : Tier → AttemptResult
  | Tier.primaryT => AttemptResult.err
  | Tier.fallbackT => AttemptResult.ok "hi there"
  | Tier.autoT => AttemptResult.err

/-- A fully successful pipeline oracle whose transcript is the two-character
text `ok`. -/
def voiceOracleShort : VoiceOracle :=
  { download := some 1024, validate_ok := true, duration := some 5,
    convert_ok := true, tiers := okTextOracle "ok",
    t_download := 1, t_validate := 1, t_convert := 1, t_transcribe := 1 }

/-- A fully successful pipeline oracle with a normal transcript. -/
def voiceOracleHello : VoiceOracle :=
  { download := some 1024, validate_ok := true, duration := some 5,
    convert_ok := true, tiers := okTextOracle "hello",
    t_download := 1, t_validate := 1, t_convert := 1, t_transcribe := 1 }

/-- A fully successful pipeline oracle whose stages consume 200 seconds of
wall-clock time in total. -/
def voiceOracleSlow : VoiceOracle :=
  { download := some 2048, validate_ok := true, duration := some 60,
    convert_ok := true, tiers := okTextOracle "hello",
    t_download := 50, t_validate := 10, t_convert := 30, t_transcribe := 110 }

/-- A pipeline oracle on which every transcription tier raises. -/
def voiceOracleExhausted : VoiceOracle :=
  { download := some 10, validate_ok := true, duration := none,
    convert_ok := true, tiers := fun _ => AttemptResult.err,
    t_download := 1, t_validate := 1, t_convert := 1, t_transcribe := 1 }

/-! ### Claims -/

/-- Claim C9, counterexample: the two step successor functions disagree at
`MOOD` — the manager advances to `WINS` while the model advances to
`MOOD_EXPLANATION` — so they do not compute the same next step for every
step. -/
theorem next_step_functions_disagree_at_mood :
    managerGetNextStep RetroStep.MOOD = some RetroStep.WINS ∧
    ConversationState.get_next_step RetroStep.MOOD = some RetroStep.MOOD_EXPLANATION ∧
    (some RetroStep.WINS : Option RetroStep) ≠ some RetroStep.MOOD_EXPLANATION := by
  decide

/-- Claim C9, amended: the two successor functions agree on every step except
`MOOD` and `MOOD_EXPLANATION`; the manager successor realizes exactly the chain
ENERGY → MOOD → WINS → LEARNINGS → NEXT_ACTIONS → MITS → EXPERIMENT → REVIEW →
COMPLETED with no successor for IDLE or COMPLETED, while the model successor
inserts MOOD_EXPLANATION between MOOD and WINS. -/
theorem next_step_agreement_except_mood_explanation :
    (∀ s : RetroStep,
        managerGetNextStep s = ConversationState.get_next_step s ∨
        s = RetroStep.MOOD ∨ s = RetroStep.MOOD_EXPLANATION) ∧
    managerGetNextStep RetroStep.IDLE = none ∧
    managerGetNextStep RetroStep.ENERGY = some RetroStep.MOOD ∧
    managerGetNextStep RetroStep.MOOD = some RetroStep.WINS ∧
    managerGetNextStep RetroStep.WINS = some RetroStep.LEARNINGS ∧
    managerGetNextStep RetroStep.LEARNINGS = some RetroStep.NEXT_ACTIONS ∧
    managerGetNextStep RetroStep.NEXT_ACTIONS = some RetroStep.MITS ∧
    managerGetNextStep RetroStep.MITS = some RetroStep.EXPERIMENT ∧
    managerGetNextStep RetroStep.EXPERIMENT = some RetroStep.REVIEW ∧
    managerGetNextStep RetroStep.REVIEW = some RetroStep.COMPLETED ∧
    managerGetNextStep RetroStep.COMPLETED = none ∧
    ConversationState.get_next_step RetroStep.MOOD = some RetroStep.MOOD_EXPLANATION ∧
    ConversationState.get_next_step RetroStep.MOOD_EXPLANATION = some RetroStep.WINS := by
  decide

/-- Claim C10: a free-text submission processed while the current step is
absent from the step-question configuration (REVIEW in particular) performs no
Retro field write, sends no message, and leaves the conversation state
unchanged. -/
theorem process_step_response_unknown_step_noop
    (extractEnergy : String → Option Nat) (extractMood : String → String)
    (state : ConversationState) (user_input : String)
    (h : step_questions state.current_step = none) :
    process_step_response extractEnergy extractMood state user_input =
      { writes := [], messages := [], newState := state } := by
  unfold process_step_response
  rw [h]

/-- Witness for claim C10 at the REVIEW step on a concrete submission. -/
theorem process_step_response_unknown_step_noop_witness :
    step_questions stateReviewStep.current_step = none ∧
    process_step_response zeroEnergyExtract defaultMoodExtract stateReviewStep "my thoughts" =
      { writes := [], messages := [], newState := stateReviewStep } :=
  ⟨rfl, process_step_response_unknown_step_noop zeroEnergyExtract defaultMoodExtract
    stateReviewStep "my thoughts" rfl⟩

/-- Claim C8, counterexample: at the instant `now = expires_at` the state on an
active step is still reported active (`is_expired` uses a strict comparison),
contradicting the claimed `now < expires_at` characterization. -/
theorem is_active_at_expiry_instant :
    stateEnergyExpiring.expires_at = some 1000 ∧
    stateEnergyExpiring.is_active 1000 = true ∧ ¬(1000 < 1000) := by
  decide

/-- Claim C8, amended: with `expires_at` set, `is_active` holds iff the step is
neither IDLE nor COMPLETED and `now ≤ expires_at` (the state stays active at
the instant `now = expires_at`), and `handle_user_response` processes an answer
only while this predicate holds. -/
theorem is_active_iff_le_expiry (s : ConversationState) (now e : Nat)
    (h : s.expires_at = some e) :
    ((s.is_active now = true) ↔
      (s.current_step ≠ RetroStep.IDLE ∧ s.current_step ≠ RetroStep.COMPLETED ∧ now ≤ e)) ∧
    (∀ (extractEnergy : String → Option Nat) (extractMood : String → String) (msg : String),
        (handle_user_response extractEnergy extractMood now (some s) msg).outcome =
          HandleOutcome.processed →
        s.is_active now = true) := by
  constructor
  · simp [ConversationState.is_active, ConversationState.is_expired, h, Nat.not_lt, and_assoc]
  · intro extractEnergy extractMood msg hp
    by_contra hna
    rw [Bool.not_eq_true] at hna
    simp [handle_user_response, hna] at hp

/-- Witness for claim C8 on a concrete active state strictly before expiry. -/
theorem is_active_iff_le_expiry_witness :
    stateEnergyExpiring.is_active 999 = true :=
  (is_active_iff_le_expiry stateEnergyExpiring 999 1000 rfl).1.mpr
    (by decide)

/-- Claim C1 (code bug evidence): on an inbound text submission with the state
on an active step but past its expiry instant, `handle_user_response` takes the
no-active-conversation branch — the participant gets the no-active-retro
notice, the state is left unchanged rather than force-reset to IDLE, and no
expiry notice is sent — because the `is_active` guard already subsumes
expiry, leaving the dedicated `is_expired` branch (reset plus expiry notice)
unreachable; at the boundary instant `now = expires_at` the submission is even
processed normally, against the claimed `now ≥ expires_at` refusal. -/
theorem handle_user_response_expired_not_reset :
    (handle_user_response zeroEnergyExtract defaultMoodExtract 1001
        (some stateEnergyExpiring) "привет").outcome = HandleOutcome.noActiveRetro ∧
    (handle_user_response zeroEnergyExtract defaultMoodExtract 1001
        (some stateEnergyExpiring) "привет").newState = some stateEnergyExpiring ∧
    (handle_user_response zeroEnergyExtract defaultMoodExtract 1001
        (some stateEnergyExpiring) "привет").messages = [MsgTag.noActiveRetroNotice] ∧
    (handle_user_response zeroEnergyExtract defaultMoodExtract 1001
        (some stateEnergyExpiring) "привет").returnValue = false ∧
    stateEnergyExpiring.is_expired 1001 = true ∧
    (handle_user_response zeroEnergyExtract defaultMoodExtract 1000
        (some stateEnergyExpiring) "привет").outcome = HandleOutcome.processed := by
  decide

/-- Claim C2, counterexample: a fully successful pipeline run whose transcript
is the two-character text `ok` returns `success = True` although the
transcript is below the minimum length threshold of 3; the failed quality
check is only recorded in the metadata flag. -/
theorem voice_success_short_text_counterexample :
    (process_telegram_voice voiceOracleShort false "ru").result.success = true ∧
    (process_telegram_voice voiceOracleShort false "ru").result.transcribed_text = "ok" ∧
    (process_telegram_voice voiceOracleShort false "ru").result.transcribed_text.length < 3 ∧
    validate_transcription
      (process_telegram_voice voiceOracleShort false "ru").result.transcribed_text = false ∧
    (process_telegram_voice voiceOracleShort false "ru").result.quality_valid = false := by
  decide

/-- Claim C2, amended: `success = True` does not guarantee the length and
marker conditions; instead, every successful `process_telegram_voice` result
carries the outcome of `validate_transcription` (non-empty, minimum length 3,
no inaudible markers) in its `quality_valid` metadata flag, computed over the
returned transcript. -/
theorem voice_success_quality_flag_only (o : VoiceOracle) (progressAttached : Bool)
    (language : String)
    (h : (process_telegram_voice o progressAttached language).result.success = true) :
    (process_telegram_voice o progressAttached language).result.quality_valid =
      validate_transcription
        (process_telegram_voice o progressAttached language).result.transcribed_text := by
  cases hd : o.download with
  | none => simp [process_telegram_voice, hd, failedResult] at h
  | some size =>
    cases hv : o.validate_ok with
    | false => simp [process_telegram_voice, hd, hv, failedResult] at h
    | true =>
      cases hc : o.convert_ok with
      | false => simp [process_telegram_voice, hd, hv, hc, failedResult] at h
      | true =>
        cases hfb : (transcribe_with_fallback o.tiers language
            (if language = "en" then none else some "en")).outcome with
        | none => simp [process_telegram_voice, hd, hv, hc, hfb, failedResult] at h
        | some tr => simp [process_telegram_voice, hd, hv, hc, hfb]

/-- Witness for claim C2 on the concrete low-quality successful run. -/
theorem voice_success_quality_flag_only_witness :
    (process_telegram_voice voiceOracleShort false "ru").result.quality_valid =
      validate_transcription
        (process_telegram_voice voiceOracleShort false "ru").result.transcribed_text :=
  voice_success_quality_flag_only voiceOracleShort false "ru" (by decide)

/-- Claim C3, counterexample: with the primary tier producing empty text and
the fallback tier succeeding with empty text, `transcribe_with_fallback`
returns the fallback result with empty text — it stops at a tier that did not
produce non-empty text, auto-detection (which would have produced text) is
never attempted, and no terminal error is raised. -/
theorem fallback_returns_empty_fallback_text :
    (transcribe_with_fallback emptyThenAutoOracle "ru" (some "en")).attempts =
      [Tier.primaryT, Tier.fallbackT] ∧
    (transcribe_with_fallback emptyThenAutoOracle "ru" (some "en")).outcome =
      some { text := "", language := "en", fallback_used := true, auto_detected := false } ∧
    emptyThenAutoOracle Tier.autoT = AttemptResult.ok "detected" := by
  decide

/-- Claim C3, amended: the tiers are attempted strictly in the order primary,
fallback (when given), auto-detection, but only the primary tier's result is
subject to the non-empty check: the attempt trace is `tierTrace` (a later tier
is attempted only when the primary raised or produced empty text and, for
auto-detection, the fallback tier was absent or raised); a fallback-tier
success is returned unconditionally, even with empty text; and the terminal
raise happens exactly when the last attempted tier is auto-detection and it
raised. -/
theorem transcribe_with_fallback_tier_discipline (oracle : Tier → AttemptResult)
    (primary_language : String) (fallback_language : Option String) :
    (transcribe_with_fallback oracle primary_language fallback_language).attempts =
      tierTrace oracle fallback_language ∧
    ((transcribe_with_fallback oracle primary_language fallback_language).outcome = none ↔
      ((transcribe_with_fallback oracle primary_language fallback_language).attempts.getLast? =
          some Tier.autoT ∧ oracle Tier.autoT = AttemptResult.err)) ∧
    (∀ fl t, fallback_language = some fl → oracle Tier.fallbackT = AttemptResult.ok t →
        primaryTierDone oracle = false →
        (transcribe_with_fallback oracle primary_language fallback_language).outcome =
          some { text := t, language := fl, fallback_used := true, auto_detected := false }) ∧
    (∀ t, oracle Tier.primaryT = AttemptResult.ok t → pyStrip t ≠ "" →
        (transcribe_with_fallback oracle primary_language fallback_language).outcome =
          some { text := t, language := primary_language, fallback_used := false,
                 auto_detected := false }) := by
  cases h1 : oracle Tier.primaryT with
  | ok t =>
    by_cases he : pyStrip t = ""
    · cases fallback_language with
      | none =>
        cases h3 : oracle Tier.autoT with
        | ok u =>
          simp [transcribe_with_fallback, fallbackTierRun, autoTierRun, tierTrace,
            primaryTierDone, h1, h3, he]
        | err =>
          simp [transcribe_with_fallback, fallbackTierRun, autoTierRun, tierTrace,
            primaryTierDone, h1, h3, he]
      | some fl =>
        cases h2 : oracle Tier.fallbackT with
        | ok u =>
          simp [transcribe_with_fallback, fallbackTierRun, autoTierRun, tierTrace,
            primaryTierDone, h1, h2, he]
        | err =>
          cases h3 : oracle Tier.autoT with
          | ok u =>
            simp [transcribe_with_fallback, fallbackTierRun, autoTierRun, tierTrace,
              primaryTierDone, h1, h2, h3, he]
          | err =>
            simp [transcribe_with_fallback, fallbackTierRun, autoTierRun, tierTrace,
              primaryTierDone, h1, h2, h3, he]
    · simp [transcribe_with_fallback, tierTrace, primaryTierDone, h1, he]
  | err =>
    cases fallback_language with
    | none =>
      cases h3 : oracle Tier.autoT with
      | ok u =>
        simp [transcribe_with_fallback, fallbackTierRun, autoTierRun, tierTrace,
          primaryTierDone, h1, h3]
      | err =>
        simp [transcribe_with_fallback, fallbackTierRun, autoTierRun, tierTrace,
          primaryTierDone, h1, h3]
    | some fl =>
      cases h2 : oracle Tier.fallbackT with
      | ok u =>
        simp [transcribe_with_fallback, fallbackTierRun, autoTierRun, tierTrace,
          primaryTierDone, h1, h2]
      | err =>
        cases h3 : oracle Tier.autoT with
        | ok u =>
          simp [transcribe_with_fallback, fallbackTierRun, autoTierRun, tierTrace,
            primaryTierDone, h1, h2, h3]
        | err =>
          simp [transcribe_with_fallback, fallbackTierRun, autoTierRun, tierTrace,
            primaryTierDone, h1, h2, h3]

/-- Witness for claim C3: the fallback tier returns unconditionally after a
primary-tier raise. -/
theorem transcribe_with_fallback_tier_discipline_witness :
    (transcribe_with_fallback errThenFallbackOracle "ru" (some "en")).outcome =
      some { text := "hi there", language := "en", fallback_used := true,
             auto_detected := false } :=
  (transcribe_with_fallback_tier_discipline errThenFallbackOracle "ru" (some "en")).2.2.1
    "en" "hi there" rfl rfl (by decide)

/-- Claim C5: every `process_telegram_voice` run creates at most two pipeline
temporary files and leaves zero of them on disk after the call returns, on
every modelled exit path; in particular, exhausting all transcription fallback
tiers yields a failed result carrying the known-pipeline-exception message
class (the `WhisperTranscriptionError` handler) with zero residual files. -/
theorem voice_temp_files_always_cleaned :
    (∀ (o : VoiceOracle) (progressAttached : Bool) (language : String),
        (process_telegram_voice o progressAttached language).filesRemaining = 0 ∧
        (process_telegram_voice o progressAttached language).filesCreated ≤ 2) ∧
    (process_telegram_voice voiceOracleExhausted false "ru").result.success = false ∧
    (process_telegram_voice voiceOracleExhausted false "ru").result.errorKind =
      some VPError.pipelineMsg ∧
    (process_telegram_voice voiceOracleExhausted false "ru").filesRemaining = 0 ∧
    (process_telegram_voice voiceOracleExhausted false "ru").filesCreated ≤ 2 := by
  refine ⟨?_, by decide, by decide, by decide, by decide⟩
  intro o progressAttached language
  cases hd : o.download with
  | none => simp [process_telegram_voice, hd]
  | some size =>
    cases hv : o.validate_ok with
    | false => simp [process_telegram_voice, hd, hv]
    | true =>
      cases hc : o.convert_ok with
      | false => simp [process_telegram_voice, hd, hv, hc]
      | true =>
        cases hfb : (transcribe_with_fallback o.tiers language
            (if language = "en" then none else some "en")).outcome with
        | none => simp [process_telegram_voice, hd, hv, hc, hfb]
        | some tr => simp [process_telegram_voice, hd, hv, hc, hfb]

/-- Claim C6: with a progress tracker attached, every successful
`process_telegram_voice` run emits exactly the progress sequence Download
start, Download complete, Validate start, Validate complete, Convert start,
Convert complete, Transcribe start, Transcribe complete, terminal Complete —
in this order, each started phase completed before the next phase starts. -/
theorem voice_success_progress_sequence (o : VoiceOracle) (language : String)
    (h : (process_telegram_voice o true language).result.success = true) :
    (process_telegram_voice o true language).events =
      [PEvent.startE PStep.DOWNLOADING, PEvent.completeE PStep.DOWNLOADING,
       PEvent.startE PStep.VALIDATING, PEvent.completeE PStep.VALIDATING,
       PEvent.startE PStep.CONVERTING, PEvent.completeE PStep.CONVERTING,
       PEvent.startE PStep.TRANSCRIBING, PEvent.completeE PStep.TRANSCRIBING,
       PEvent.completeE PStep.COMPLETED] := by
  cases hd : o.download with
  | none => simp [process_telegram_voice, hd, failedResult] at h
  | some size =>
    cases hv : o.validate_ok with
    | false => simp [process_telegram_voice, hd, hv, failedResult] at h
    | true =>
      cases hc : o.convert_ok with
      | false => simp [process_telegram_voice, hd, hv, hc, failedResult] at h
      | true =>
        cases hfb : (transcribe_with_fallback o.tiers language
            (if language = "en" then none else some "en")).outcome with
        | none => simp [process_telegram_voice, hd, hv, hc, hfb, failedResult] at h
        | some tr => simp [process_telegram_voice, hd, hv, hc, hfb]

/-- Witness for claim C6 on a concrete fully successful run. -/
theorem voice_success_progress_sequence_witness :
    (process_telegram_voice voiceOracleHello true "ru").events =
      [PEvent.startE PStep.DOWNLOADING, PEvent.completeE PStep.DOWNLOADING,
       PEvent.startE PStep.VALIDATING, PEvent.completeE PStep.VALIDATING,
       PEvent.startE PStep.CONVERTING, PEvent.completeE PStep.CONVERTING,
       PEvent.startE PStep.TRANSCRIBING, PEvent.completeE PStep.TRANSCRIBING,
       PEvent.completeE PStep.COMPLETED] :=
  voice_success_progress_sequence voiceOracleHello "ru" (by decide)

/-- Claim C7 (code bug evidence): `processing_timeout` is 120 seconds but is
never applied to the pipeline — a run whose stages consume 200 seconds of
wall-clock time in total is not aborted: it returns `success = True` with
`processing_time` over the configured deadline, and not the distinct timeout
failure message. -/
theorem processing_timeout_not_enforced :
    processing_timeout = 120 ∧
    (process_telegram_voice voiceOracleSlow false "ru").result.success = true ∧
    (process_telegram_voice voiceOracleSlow false "ru").result.processing_time = 200 ∧
    (process_telegram_voice voiceOracleSlow false "ru").result.processing_time >
      processing_timeout ∧
    (process_telegram_voice voiceOracleSlow false "ru").result.errorKind ≠
      some VPError.timeoutMsg := by
  decide

/-- Over a duplicate-free participant list disjoint from the current
`_daily_sent_users` set, the broadcast loop attempts every participant exactly
once, in list order. -/
theorem reminder_foldl_attempts (sendOk : Nat → Bool) :
    ∀ (us att sent : List Nat), us.Nodup → (∀ u ∈ us, u ∉ sent) →
      (us.foldl (reminderStep sendOk) (att, sent)).1 = att ++ us := by
  intro us
  induction us with
  | nil => intro att sent _ _; simp
  | cons u rest ih =>
    intro att sent hnd hdisj
    have hu : u ∉ sent := hdisj u (List.mem_cons_self u rest)
    have hstep : reminderStep sendOk (att, sent) u =
        (att ++ [u], if sendOk u then sent ++ [u] else sent) := by
      simp [reminderStep, hu]
    have hnd' : rest.Nodup := (List.nodup_cons.mp hnd).2
    have hu_rest : u ∉ rest := (List.nodup_cons.mp hnd).1
    rw [List.foldl_cons, hstep]
    by_cases hs : sendOk u
    · have hdisj' : ∀ v ∈ rest, v ∉ sent ++ [u] := by
        intro v hv
        simp only [List.mem_append, List.mem_singleton]
        rintro (hvs | rfl)
        · exact hdisj v (List.mem_cons_of_mem _ hv) hvs
        · exact hu_rest hv
      rw [if_pos hs, ih (att ++ [u]) (sent ++ [u]) hnd' hdisj']
      simp
    · have hdisj' : ∀ v ∈ rest, v ∉ sent := fun v hv =>
        hdisj v (List.mem_cons_of_mem _ hv)
      rw [if_neg hs, ih (att ++ [u]) sent hnd' hdisj']
      simp

/-- Claim C4, counterexample: two consecutive 60-second ticks at Moscow
minutes 480 and 481 both lie inside the ±1-minute tolerance window; with the
first broadcast completing before the second tick, a participant with a
pending todo receives two reminder delivery attempts on the same day, because
`_daily_sent_users` is cleared at the start of every broadcast run. -/
theorem two_ticks_double_reminder :
    should_send_daily_reminder 480 = true ∧
    should_send_daily_reminder 481 = true ∧
    scheduler_ticks [480, 481] [7] (fun _ => true) = [7, 7] ∧
    (scheduler_ticks [480, 481] [7] (fun _ => true)).count 7 = 2 := by
  decide

/-- Claim C4, amended: a tick matches exactly when the Moscow minute of day
lies in 479..481; within one spawned broadcast every participant with todos is
attempted exactly once (the attempt list equals the participant list); but the
once-per-day guarantee does not survive a second qualifying tick: when both
ticks of the window spawn a broadcast (the first having completed in between),
the attempts are repeated in full. -/
theorem reminder_once_per_broadcast_only :
    (∀ m : Nat, should_send_daily_reminder m = true ↔ (479 ≤ m ∧ m ≤ 481)) ∧
    (∀ (users : List Nat) (sendOk : Nat → Bool), users.Nodup →
        (send_daily_reminders users sendOk).1 = users) ∧
    (∀ (users : List Nat) (sendOk : Nat → Bool) (m₁ m₂ : Nat),
        should_send_daily_reminder m₁ = true → should_send_daily_reminder m₂ = true →
        users.Nodup →
        scheduler_ticks [m₁, m₂] users sendOk = users ++ users) := by
  have hbcast : ∀ (users : List Nat) (sendOk : Nat → Bool), users.Nodup →
      (send_daily_reminders users sendOk).1 = users := by
    intro users sendOk hnd
    have := reminder_foldl_attempts sendOk users [] [] hnd (by simp)
    simpa [send_daily_reminders] using this
  refine ⟨?_, hbcast, ?_⟩
  · intro m
    simp only [should_send_daily_reminder, daily_reminder_minutes, decide_eq_true_eq]
    omega
  · intro users sendOk m₁ m₂ h1 h2 hnd
    simp [scheduler_ticks, h1, h2, hbcast users sendOk hnd]

/-- Witness for claim C4 on two concrete participants and the two outer ticks
of the tolerance window. -/
theorem reminder_once_per_broadcast_only_witness :
    scheduler_ticks [479, 480] [42, 43] (fun _ => true) = [42, 43] ++ [42, 43] :=
  reminder_once_per_broadcast_only.2.2 [42, 43] (fun _ => true) 479 480
    (by decide) (by decide) (by decide)
